import Mathlib

/-
Shallow embedding of `src/ai_and_data/openai_generate_vector.py`.

The script sets four module-level configuration fields of the `openai`
client (lines 4-7), binds a text literal (line 9), issues one call to
`openai.embeddings.create` with `input=[text]` and a model name (lines
10-13), reads `response.data[0].embedding` (line 14) and prints it
(line 15).

The remote service is modelled as an oracle `Request → CallResult α`,
where `α` is the scalar type of embedding vectors (the script never
inspects the scalars, it only passes them to `print`, modelled by an
abstract rendering function `toStr : List α → String`).  Execution is a
left fold of a statement list over a process state that records the
configuration, the outbound requests issued, the lines written to
standard output, and whether the process has crashed (an uncaught
exception).  Once `crashed` is set, later statements do not execute,
matching Python's termination on an uncaught exception.
-/

namespace OpenAIGenerateVector

/-- The module-level configuration fields assigned at lines 4-7 of the
script: `openai.api_type`, `openai.api_key`, `openai.azure_endpoint`,
`openai.api_version`. -/
structure Config where
  api_type : String
  api_key : String
  azure_endpoint : String
  api_version : String
  deriving DecidableEq, Repr

/-- One outbound request to `openai.embeddings.create`: the explicit
keyword arguments `input` and `model` (lines 11-12) together with the
module-level configuration in force at call time. -/
structure Request where
  input : List String
  model : String
  api_type : String
  api_key : String
  azure_endpoint : String
  api_version : String
  deriving DecidableEq, Repr

/-- One entry of the response's `data` list; the script reads its
`embedding` field (line 14). -/
structure Entry (α : Type) where
  embedding : List α
  deriving DecidableEq, Repr

/-- A successful response: an object with a `data` list of per-input
entries. -/
structure Response (α : Type) where
  data : List (Entry α)
  deriving DecidableEq, Repr

/-- Outcome of the remote call: a response object, or a raised error
(authentication, connectivity, not-found deployment, ...), carried as a
diagnostic string. -/
inductive CallResult (α : Type) where
  | success : Response α → CallResult α
  | failure : String → CallResult α
  deriving DecidableEq, Repr

/-- Process state: the configuration record, the bound `text` variable,
the bound `response` and `embedding` variables (absent before their
assignment), the list of outbound requests issued so far, the lines
written to standard output so far, and the diagnostic of an uncaught
exception if one was raised. -/
structure PState (α : Type) where
  cfg : Config
  text : String
  response : Option (Response α)
  embedding : Option (List α)
  requests : List Request
  stdout : List String
  crashed : Option String
  deriving DecidableEq, Repr

/-- The state before any statement of the script has run: no field set,
no call made, nothing printed. -/
def initState (α : Type) : PState α :=
  { cfg := { api_type := "", api_key := "", azure_endpoint := "", api_version := "" }
    text := ""
    response := none
    embedding := none
    requests := []
    stdout := []
    crashed := none }

/-- The top-level statements of the script, one constructor per source
line that acts: lines 4-7 (configuration assignments), line 9 (text
binding), lines 10-13 (the call), line 14 (index-0 extraction), line 15
(print). -/
inductive Stmt where
  | setApiType (v : String)
  | setApiKey (v : String)
  | setAzureEndpoint (v : String)
  | setApiVersion (v : String)
  | assignText (v : String)
  | callCreate (model : String)
  | extractEmbedding
  | printEmbedding
  deriving DecidableEq, Repr

/-- Effect of one statement on a (non-crashed) state.  `callCreate`
builds the request from the current configuration and the bound text,
records it as issued, and either binds the response or crashes with the
call's diagnostic.  `extractEmbedding` crashes with an index error when
the `data` list is empty, matching Python's `response.data[0]`. -/
def execStmt {α : Type} (oracle : Request → CallResult α) (toStr : List α → String)
    (s : PState α) : Stmt → PState α
  | .setApiType v => { s with cfg := { s.cfg with api_type := v } }
  | .setApiKey v => { s with cfg := { s.cfg with api_key := v } }
  | .setAzureEndpoint v => { s with cfg := { s.cfg with azure_endpoint := v } }
  | .setApiVersion v => { s with cfg := { s.cfg with api_version := v } }
  | .assignText v => { s with text := v }
  | .callCreate m =>
      let req : Request :=
        { input := [s.text]
          model := m
          api_type := s.cfg.api_type
          api_key := s.cfg.api_key
          azure_endpoint := s.cfg.azure_endpoint
          api_version := s.cfg.api_version }
      match oracle req with
      | .success r => { s with requests := s.requests ++ [req], response := some r }
      | .failure e => { s with requests := s.requests ++ [req], crashed := some e }
  | .extractEmbedding =>
      match s.response with
      | some r =>
          match r.data with
          | [] => { s with crashed := some "IndexError: list index out of range" }
          | e :: _ => { s with embedding := some e.embedding }
      | none => { s with crashed := some "NameError: name response is not defined" }
  | .printEmbedding =>
      match s.embedding with
      | some v => { s with stdout := s.stdout ++ [toStr v] }
      | none => { s with crashed := some "NameError: name embedding is not defined" }

/-- One step of execution: a crashed process executes nothing further
(an uncaught exception terminates the script). -/
def step {α : Type} (oracle : Request → CallResult α) (toStr : List α → String)
    (s : PState α) (st : Stmt) : PState α :=
  if s.crashed.isSome then s else execStmt oracle toStr s st

/-- Run a statement list from the initial state. -/
def runProgram {α : Type} (oracle : Request → CallResult α) (toStr : List α → String)
    (stmts : List Stmt) : PState α :=
  stmts.foldl (step oracle toStr) (initState α)

/-- The script's statement sequence, parameterized by its six string
literals (lines 4, 5, 6, 7, 9 and 12), in source order. -/
def programWith (apiType apiKey endpoint apiVersion text model : String) : List Stmt :=
  [ .setApiType apiType
  , .setApiKey apiKey
  , .setAzureEndpoint endpoint
  , .setApiVersion apiVersion
  , .assignText text
  , .callCreate model
  , .extractEmbedding
  , .printEmbedding ]

/-- The text literal of line 9. -/
def textLiteral : String := "Mountains are beautiful in the fall."

/-- The deployment/model literal of line 12. -/
def modelLiteral : String := "ada-embedding-deployment"

/-- The credential literal of line 5. -/
def apiKeyLiteral : String := "YOUR_API_KEY"

/-- The endpoint literal of line 6. -/
def endpointLiteral : String := "https://YOUR_AZURE_OPENAI_ENDPOINT/"

/-- The protocol-version literal of line 7. -/
def apiVersionLiteral : String := "2023-05-15"

/-- The script exactly as written, with its literal values. -/
def program : List Stmt :=
  programWith "azure" apiKeyLiteral endpointLiteral apiVersionLiteral textLiteral modelLiteral

/-- Run the script against a given service oracle and rendering
function. -/
def run {α : Type} (oracle : Request → CallResult α) (toStr : List α → String) : PState α :=
  runProgram oracle toStr program

/-- The configuration in force after lines 4-7. -/
def configuredCfg : Config :=
  { api_type := "azure"
    api_key := apiKeyLiteral
    azure_endpoint := endpointLiteral
    api_version := apiVersionLiteral }

/-- The single request the script issues at lines 10-13. -/
def theRequest : Request :=
  { input := [textLiteral]
    model := modelLiteral
    api_type := "azure"
    api_key := apiKeyLiteral
    azure_endpoint := endpointLiteral
    api_version := apiVersionLiteral }

/-- The request issued when the script's literals are replaced by the
given values. -/
def requestWith (apiType apiKey endpoint apiVersion text model : String) : Request :=
  { input := [text]
    model := model
    api_type := apiType
    api_key := apiKey
    azure_endpoint := endpoint
    api_version := apiVersion }

/-- The final state of the parameterized script, as a case split on the
oracle's answer to its one request. -/
def finalStateWith {α : Type} (oracle : Request → CallResult α) (toStr : List α → String)
    (apiType apiKey endpoint apiVersion text model : String) : PState α :=
  match oracle (requestWith apiType apiKey endpoint apiVersion text model) with
  | .failure e =>
      { cfg := { api_type := apiType, api_key := apiKey
                 azure_endpoint := endpoint, api_version := apiVersion }
        text := text, response := none, embedding := none
        requests := [requestWith apiType apiKey endpoint apiVersion text model]
        stdout := [], crashed := some e }
  | .success r =>
      match r.data with
      | [] =>
          { cfg := { api_type := apiType, api_key := apiKey
                     azure_endpoint := endpoint, api_version := apiVersion }
            text := text, response := some r, embedding := none
            requests := [requestWith apiType apiKey endpoint apiVersion text model]
            stdout := []
            crashed := some "IndexError: list index out of range" }
      | e0 :: _ =>
          { cfg := { api_type := apiType, api_key := apiKey
                     azure_endpoint := endpoint, api_version := apiVersion }
            text := text, response := some r
            embedding := some e0.embedding
            requests := [requestWith apiType apiKey endpoint apiVersion text model]
            stdout := [toStr e0.embedding], crashed := none }

/-- Master characterization: running the parameterized script computes
`finalStateWith`. -/
theorem runProgram_programWith_eq {α : Type} (oracle : Request → CallResult α)
    (toStr : List α → String) (apiType apiKey endpoint apiVersion text model : String) :
    runProgram oracle toStr (programWith apiType apiKey endpoint apiVersion text model) =
      finalStateWith oracle toStr apiType apiKey endpoint apiVersion text model := by
  cases h : oracle (requestWith apiType apiKey endpoint apiVersion text model) with
  | failure e =>
      simp [runProgram, programWith, initState, step, execStmt,
        finalStateWith, requestWith] at h ⊢
      simp [h]
  | success r =>
      cases hd : r.data with
      | nil =>
          simp [runProgram, programWith, initState, step, execStmt,
            finalStateWith, requestWith] at h ⊢
          simp [h, hd]
      | cons e0 rest =>
          simp [runProgram, programWith, initState, step, execStmt,
            finalStateWith, requestWith] at h ⊢
          simp [h, hd]

/-- Specialization to the script's literals. -/
theorem run_eq {α : Type} (oracle : Request → CallResult α) (toStr : List α → String) :
    run oracle toStr =
      finalStateWith oracle toStr "azure" apiKeyLiteral endpointLiteral apiVersionLiteral
        textLiteral modelLiteral := by
  unfold run program
  exact runProgram_programWith_eq oracle toStr _ _ _ _ _ _

/-- The parameterized request at the script's literals is `theRequest`. -/
theorem requestWith_literals :
    requestWith "azure" apiKeyLiteral endpointLiteral apiVersionLiteral
      textLiteral modelLiteral = theRequest := rfl

/-- Sample response entry used to exercise the theorems on concrete
inputs. -/
def sampleEntry : Entry Int := { embedding := [1, -2, 3] }

/-- Sample one-entry response. -/
def sampleResponse : Response Int := { data := [sampleEntry] }

/-- Oracle of a service that always succeeds with `sampleResponse`. -/
def successOracle : Request → CallResult Int := fun _ => .success sampleResponse

/-- Oracle of a service that succeeds with an empty result list. -/
def emptyOracle : Request → CallResult Int := fun _ => .success { data := [] }

/-- Oracle of a service whose call raises a transient failure. -/
def failOracle : Request → CallResult Int := fun _ => .failure "APIConnectionError"

/-- Concrete rendering function for integer vectors. -/
def sampleToStr : List Int → String := fun l => toString l

/-- Helper: the run issues exactly the one parameterized request,
whatever the oracle answers. -/
theorem requests_run_eq {α : Type} (oracle : Request → CallResult α)
    (toStr : List α → String) (a k e v t m : String) :
    (runProgram oracle toStr (programWith a k e v t m)).requests =
      [requestWith a k e v t m] := by
  rw [runProgram_programWith_eq]
  unfold finalStateWith
  cases h : oracle (requestWith a k e v t m) with
  | failure err => simp [h]
  | success r =>
      cases hd : r.data with
      | nil => simp [h, hd]
      | cons e0 rest => simp [h, hd]

/-- C1: for every successful call whose response result list has at
least one entry, the text printed to standard output equals exactly the
textual form of the `embedding` field of the first (index 0) entry of
that response. -/
theorem printed_is_first_embedding {α : Type} (oracle : Request → CallResult α)
    (toStr : List α → String) (r : Response α) (e0 : Entry α) (rest : List (Entry α))
    (hr : oracle theRequest = CallResult.success r) (hd : r.data = e0 :: rest) :
    (run oracle toStr).stdout = [toStr e0.embedding] := by
  rw [run_eq]
  simp only [finalStateWith, requestWith_literals, hr, hd]

/-- Witness for C1 at a concrete oracle and response. -/
theorem printed_is_first_embedding_witness :
    successOracle theRequest = CallResult.success sampleResponse ∧
    sampleResponse.data = sampleEntry :: [] ∧
    (run successOracle sampleToStr).stdout = [sampleToStr sampleEntry.embedding] :=
  ⟨rfl, rfl,
    printed_is_first_embedding successOracle sampleToStr sampleResponse sampleEntry [] rfl rfl⟩

/-- C2: for every call whose response result list is empty, the program
fails with an index-out-of-range error and prints nothing to standard
output. -/
theorem empty_data_crashes {α : Type} (oracle : Request → CallResult α)
    (toStr : List α → String) (r : Response α)
    (hr : oracle theRequest = CallResult.success r) (hd : r.data = []) :
    (run oracle toStr).crashed = some "IndexError: list index out of range" ∧
    (run oracle toStr).stdout = [] := by
  rw [run_eq]
  simp [finalStateWith, requestWith_literals, hr, hd]

/-- Witness for C2 at a concrete oracle returning an empty result
list. -/
theorem empty_data_crashes_witness :
    emptyOracle theRequest = CallResult.success { data := [] } ∧
    (run emptyOracle sampleToStr).crashed = some "IndexError: list index out of range" ∧
    (run emptyOracle sampleToStr).stdout = [] :=
  ⟨rfl, empty_data_crashes emptyOracle sampleToStr { data := [] } rfl rfl⟩

/-- C3: for every invocation, whatever the six literals are set to, the
outbound request body contains a list with exactly one input string. -/
theorem single_input_invariant {α : Type} (oracle : Request → CallResult α)
    (toStr : List α → String) (a k e v t m : String) :
    (runProgram oracle toStr (programWith a k e v t m)).requests =
      [requestWith a k e v t m] ∧
    (requestWith a k e v t m).input = [t] ∧
    (requestWith a k e v t m).input.length = 1 :=
  ⟨requests_run_eq oracle toStr a k e v t m, rfl, rfl⟩

/-- C4: two runs that differ only in the deployment/model literal issue
requests that differ only in the `model` parameter; the input list and
every configuration field are unchanged. -/
theorem model_literal_frame {α : Type} (oracle₁ oracle₂ : Request → CallResult α)
    (toStr₁ toStr₂ : List α → String) (m₁ m₂ : String) :
    (runProgram oracle₁ toStr₁
        (programWith "azure" apiKeyLiteral endpointLiteral apiVersionLiteral textLiteral m₁)).requests =
      [requestWith "azure" apiKeyLiteral endpointLiteral apiVersionLiteral textLiteral m₁] ∧
    (runProgram oracle₂ toStr₂
        (programWith "azure" apiKeyLiteral endpointLiteral apiVersionLiteral textLiteral m₂)).requests =
      [requestWith "azure" apiKeyLiteral endpointLiteral apiVersionLiteral textLiteral m₂] ∧
    requestWith "azure" apiKeyLiteral endpointLiteral apiVersionLiteral textLiteral m₁ =
      { requestWith "azure" apiKeyLiteral endpointLiteral apiVersionLiteral textLiteral m₂ with
          model := m₁ } :=
  ⟨requests_run_eq oracle₁ toStr₁ _ _ _ _ _ m₁,
   requests_run_eq oracle₂ toStr₂ _ _ _ _ _ m₂, rfl⟩

/-- C5: when the single call attempt fails with a transient failure,
exactly one outbound call attempt is made, the process terminates
abnormally with that failure, and no retry occurs. -/
theorem no_retry_on_failure {α : Type} (oracle : Request → CallResult α)
    (toStr : List α → String) (err : String)
    (hf : oracle theRequest = CallResult.failure err) :
    (run oracle toStr).requests = [theRequest] ∧
    (run oracle toStr).crashed = some err ∧
    (run oracle toStr).stdout = [] := by
  rw [run_eq]
  simp [finalStateWith, requestWith_literals, hf]

/-- Witness for C5 at a concrete failing oracle. -/
theorem no_retry_on_failure_witness :
    failOracle theRequest = CallResult.failure "APIConnectionError" ∧
    (run failOracle sampleToStr).requests = [theRequest] ∧
    (run failOracle sampleToStr).crashed = some "APIConnectionError" ∧
    (run failOracle sampleToStr).stdout = [] :=
  ⟨rfl, no_retry_on_failure failOracle sampleToStr "APIConnectionError" rfl⟩

/-- C6: every failure mode of the call — a raised call failure of any
kind, or a response with an empty result list — propagates uncaught:
the process ends crashed, with nothing printed to standard output. -/
theorem failures_uncaught {α : Type} (oracle : Request → CallResult α)
    (toStr : List α → String)
    (hfail : (∃ err, oracle theRequest = CallResult.failure err) ∨
      (∃ r, oracle theRequest = CallResult.success r ∧ r.data = [])) :
    (run oracle toStr).crashed.isSome = true ∧
    (run oracle toStr).stdout = [] := by
  rw [run_eq]
  rcases hfail with ⟨err, hf⟩ | ⟨r, hr, hd⟩
  · simp [finalStateWith, requestWith_literals, hf]
  · simp [finalStateWith, requestWith_literals, hr, hd]

/-- Witness for C6 at a concrete failing oracle. -/
theorem failures_uncaught_witness :
    (run failOracle sampleToStr).crashed.isSome = true ∧
    (run failOracle sampleToStr).stdout = [] :=
  failures_uncaught failOracle sampleToStr (Or.inl ⟨"APIConnectionError", rfl⟩)

/-- C7: the connection configuration is created once by the four
assignments at process start and no later statement of the run modifies
it, whatever the oracle answers; and no validation of its values is
performed — the call is issued for every choice of the literal values. -/
theorem config_created_once_unvalidated {α : Type} (oracle : Request → CallResult α)
    (toStr : List α → String) :
    (run oracle toStr).cfg = configuredCfg ∧
    (∀ (s : PState α) (v : String), (step oracle toStr s (Stmt.assignText v)).cfg = s.cfg) ∧
    (∀ (s : PState α) (m : String), (step oracle toStr s (Stmt.callCreate m)).cfg = s.cfg) ∧
    (∀ s : PState α, (step oracle toStr s Stmt.extractEmbedding).cfg = s.cfg) ∧
    (∀ s : PState α, (step oracle toStr s Stmt.printEmbedding).cfg = s.cfg) ∧
    (∀ a k e v t m : String,
      (runProgram oracle toStr (programWith a k e v t m)).requests.length = 1) := by
  refine ⟨?_, ?_, ?_, ?_, ?_, ?_⟩
  · rw [run_eq]
    simp only [finalStateWith, requestWith_literals]
    cases h : oracle theRequest with
    | failure err => rfl
    | success r =>
        cases hd : r.data with
        | nil =>
            simp only [hd]
            rfl
        | cons e0 rest =>
            simp only [hd]
            rfl
  · intro s v
    unfold step execStmt
    cases hc : s.crashed.isSome <;> simp
  · intro s m
    unfold step execStmt
    cases hc : s.crashed.isSome <;> simp
    cases oracle
        { input := [s.text], model := m, api_type := s.cfg.api_type, api_key := s.cfg.api_key
          azure_endpoint := s.cfg.azure_endpoint, api_version := s.cfg.api_version } <;> rfl
  · intro s
    unfold step execStmt
    cases hc : s.crashed.isSome <;> simp
    cases hr : s.response with
    | none => rfl
    | some r =>
        cases hdd : r.data with
        | nil => simp [hdd]
        | cons a l => simp [hdd]
  · intro s
    unfold step execStmt
    cases hc : s.crashed.isSome <;> simp
    cases s.embedding <;> rfl
  · intro a k e v t m
    rw [requests_run_eq]
    rfl

/-- C8: the run's side effects are exactly one outbound call and, when
the run terminates normally, exactly one line on standard output
carrying the textual form of the first entry's embedding; whenever the
run crashes, nothing is printed. -/
theorem side_effects_exact {α : Type} (oracle : Request → CallResult α)
    (toStr : List α → String) :
    (run oracle toStr).requests = [theRequest] ∧
    (∀ (r : Response α) (e0 : Entry α) (rest : List (Entry α)),
      oracle theRequest = CallResult.success r → r.data = e0 :: rest →
        (run oracle toStr).stdout = [toStr e0.embedding]) ∧
    ((run oracle toStr).crashed = none →
      ∃ (r : Response α) (e0 : Entry α) (rest : List (Entry α)),
        oracle theRequest = CallResult.success r ∧ r.data = e0 :: rest) ∧
    ((run oracle toStr).crashed.isSome = true → (run oracle toStr).stdout = []) := by
  rw [run_eq]
  simp only [finalStateWith, requestWith_literals]
  cases h : oracle theRequest with
  | failure err =>
      refine ⟨by simp, ?_, ?_, by simp⟩
      · intro r e0 rest hr
        simp at hr
      · intro hnone
        simp at hnone
  | success r =>
      cases hd : r.data with
      | nil =>
          refine ⟨by simp [hd], ?_, ?_, by simp [hd]⟩
          · intro r2 e02 rest2 hr2 hd2
            simp only [CallResult.success.injEq] at hr2
            rw [← hr2, hd] at hd2
            simp at hd2
          · intro hnone
            simp [hd] at hnone
      | cons e0 rest =>
          refine ⟨by simp [hd], ?_, fun _ => ⟨r, e0, rest, rfl, hd⟩, ?_⟩
          · intro r2 e02 rest2 hr2 hd2
            simp only [CallResult.success.injEq] at hr2
            rw [← hr2, hd] at hd2
            simp only [List.cons.injEq] at hd2
            simp [hd, hd2.1]
          · intro hsome
            simp [hd] at hsome

/-- Witness for C8: the success-branch implication applied at a concrete
oracle and response. -/
theorem side_effects_exact_witness :
    (run successOracle sampleToStr).requests = [theRequest] ∧
    (run successOracle sampleToStr).stdout = [sampleToStr sampleEntry.embedding] := by
  have h := side_effects_exact successOracle sampleToStr
  exact ⟨h.1, h.2.1 sampleResponse sampleEntry [] rfl rfl⟩

/-- C9: the outbound request carries api type "azure", api version
"2023-05-15", the configured credential, endpoint URL and
deployment/model name, and every run issues exactly that request. -/
theorem request_parameters :
    theRequest.api_type = "azure" ∧
    theRequest.api_version = "2023-05-15" ∧
    theRequest.api_key = apiKeyLiteral ∧
    theRequest.azure_endpoint = endpointLiteral ∧
    theRequest.model = modelLiteral ∧
    theRequest.input = [textLiteral] ∧
    ∀ (α : Type) (oracle : Request → CallResult α) (toStr : List α → String),
      (run oracle toStr).requests = [theRequest] := by
  refine ⟨rfl, rfl, rfl, rfl, rfl, rfl, ?_⟩
  intro α oracle toStr
  have h := requests_run_eq oracle toStr "azure" apiKeyLiteral endpointLiteral
    apiVersionLiteral textLiteral modelLiteral
  rw [requestWith_literals] at h
  exact h

/-- C10: the printed output depends only on the service's response to
the one request: oracles answering identically produce identical
output, and successful responses agreeing on their first entry produce
identical output regardless of later entries. -/
theorem output_depends_only_on_response {α : Type}
    (oracle₁ oracle₂ : Request → CallResult α) (toStr : List α → String) :
    (oracle₁ theRequest = oracle₂ theRequest →
      (run oracle₁ toStr).stdout = (run oracle₂ toStr).stdout) ∧
    (∀ r₁ r₂ : Response α,
      oracle₁ theRequest = CallResult.success r₁ →
      oracle₂ theRequest = CallResult.success r₂ →
      r₁.data.head? = r₂.data.head? →
        (run oracle₁ toStr).stdout = (run oracle₂ toStr).stdout) := by
  constructor
  · intro hsame
    rw [run_eq, run_eq]
    simp only [finalStateWith, requestWith_literals, hsame]
  · intro r₁ r₂ h₁ h₂ hhead
    rw [run_eq, run_eq]
    simp only [finalStateWith, requestWith_literals, h₁, h₂]
    cases hd₁ : r₁.data with
    | nil =>
        cases hd₂ : r₂.data with
        | nil => rfl
        | cons b bs =>
            rw [hd₁, hd₂] at hhead
            simp at hhead
    | cons a as =>
        cases hd₂ : r₂.data with
        | nil =>
            rw [hd₁, hd₂] at hhead
            simp at hhead
        | cons b bs =>
            rw [hd₁, hd₂] at hhead
            simp only [List.head?_cons, Option.some.injEq] at hhead
            rw [hhead]

/-- Witness for C10: two oracles whose responses agree on the first
entry but differ afterwards print the same line. -/
theorem output_depends_only_on_response_witness :
    (run successOracle sampleToStr).stdout =
      (run (fun _ => CallResult.success { data := [sampleEntry, { embedding := [7] }] })
        sampleToStr).stdout :=
  (output_depends_only_on_response successOracle
      (fun _ => CallResult.success { data := [sampleEntry, { embedding := [7] }] })
      sampleToStr).2
    sampleResponse { data := [sampleEntry, { embedding := [7] }] } rfl rfl rfl

end OpenAIGenerateVector
